import Mathlib

/-!
Verification development for the plaso `log2timeline` front-end
(`tools/log2timeline.py`) and the extraction coordination engine it drives.

The CLI tool (`Log2TimelineTool`) is embedded from the source: its
`ParseOptions` pipeline, the `ProcessSource` control flow and the `Main`
outcome logic.  Collaborators that live outside the inspected tree
(the superclass option parser, `pfilter.GetMatcher`, the front end's
scanner and processing engine) are abstracted as parameters or, where a
claim is about their specified behaviour, modelled explicitly from the
specification (such definitions carry a doc comment starting with
`Modelled from the spec:`).
-/

namespace Log2Timeline

/-- An event produced by a parser: a bag of named attribute values. -/
structure Event where
  attributes : List (String × String)
deriving DecidableEq

/-- A compiled filter predicate over events (the object returned by
`pfilter.GetMatcher`). -/
abbrev Matcher := Event → Bool

/-- The fields of the `argparse.Namespace` that `Log2TimelineTool` consumes
(see `AddProcessingOptions`, `AddOutputOptions`, `ParseArguments`). -/
structure Options where
  show_info : Bool
  timezone : String
  output : Option String
  source : Option String
  filter : Option String
  single_process : Bool
  foreman_verbose : Bool
  workers : Int
  log_file : Option String
  status_view_mode : String
  os : Option String
  filename : Option String
  output_module : Option String
  text_prepend : Option String

/-- The error raised on invalid options (`errors.BadConfigOption`). -/
inductive ConfigError
  | badConfigOption (msg : String)
deriving DecidableEq

/-- Python truthiness of an optional string attribute: `None` and the empty
string are falsy, any non-empty string is truthy. -/
def truthyOpt : Option String → Bool
  | none => false
  | some s => !s.isEmpty

/-- The tool state mutated by `ParseOptions` (instance attributes of
`Log2TimelineTool` relevant to the claims). -/
structure ToolState where
  list_parsers_and_plugins : Bool
  list_timezones : Bool
  single_process_mode : Bool
  foreman_verbose : Bool
  output : Option String
  operating_system : Option String
  mount_path : Option String
  filter_expression : Option String
  filter_object : Option Matcher
  status_view_mode : String

/-- Attribute values established by `__init__` before `ParseOptions` runs. -/
def initToolState : ToolState :=
  { list_parsers_and_plugins := false
    list_timezones := false
    single_process_mode := false
    foreman_verbose := false
    output := none
    operating_system := none
    mount_path := none
    filter_expression := none
    filter_object := none
    status_view_mode := "linear" }

/-- The tool state produced by the early return of `ParseOptions` when a
list option is selected: only the two list flags are updated. -/
def earlyState (ltz lpp : Bool) : ToolState :=
  { initToolState with list_timezones := ltz, list_parsers_and_plugins := lpp }

/-- Collaborators of `ParseOptions` that are defined outside the inspected
source: `_ParseTimezoneOption` (sets `list_timezones` from the timezone
option), the superclass `ExtractionTool.ParseOptions` (may raise
`BadConfigOption`), and `pfilter.GetMatcher` (returns a matcher object or
a falsy value). -/
structure Collaborators where
  parseTimezone : Options → Bool
  superParse : Options → Except ConfigError Unit
  getMatcher : String → Option Matcher

/-- Result of `_ParseProcessingOptions` (source lines 107-120): it reads
`single_process` and `foreman_verbose`; the `workers` option is not
consumed (the body ends in `TODO: workers`). -/
structure ProcessingOpts where
  single_process_mode : Bool
  foreman_verbose : Bool

/-- Embedding of `_ParseProcessingOptions`: note that `o.workers` is not
read anywhere. -/
def ParseProcessingOptions (o : Options) : ProcessingOpts :=
  { single_process_mode := o.single_process
    foreman_verbose := o.foreman_verbose }

/-- The filter compilation step of `ParseOptions` (source lines 431-437):
a truthy filter expression is compiled with `pfilter.GetMatcher`; a falsy
result raises `BadConfigOption` carrying the expression; a falsy
expression leaves the filter object unset. -/
def filterStep (C : Collaborators) (fe : Option String) :
    Except ConfigError (Option Matcher) :=
  if truthyOpt fe then
    match C.getMatcher (fe.getD "") with
    | none => .error (.badConfigOption ("Invalid filter expression: " ++ fe.getD ""))
    | some m => .ok (some m)
  else
    .ok none

/-- Embedding of `Log2TimelineTool.ParseOptions` (source lines 379-439):
list options are checked first and return early; then the superclass
parser runs, then output/processing options are read, the output path is
validated, the operating-system/mount-path attributes are read, the
filter expression is compiled and the status view mode is stored. -/
def ParseOptions (C : Collaborators) (o : Options) :
    Except ConfigError ToolState :=
  let list_timezones := C.parseTimezone o
  let list_parsers_and_plugins := o.show_info
  if list_timezones || list_parsers_and_plugins then
    .ok (earlyState list_timezones list_parsers_and_plugins)
  else
    match C.superParse o with
    | .error e => .error e
    | .ok _ =>
      let procOpts := ParseProcessingOptions o
      if truthyOpt o.output = false then
        .error (.badConfigOption "No output defined.")
      else
        let operating_system := o.os
        let mount_path := if truthyOpt operating_system then o.filename else none
        match filterStep C o.filter with
        | .error e => .error e
        | .ok filter_object =>
          .ok { list_parsers_and_plugins := list_parsers_and_plugins
                list_timezones := list_timezones
                single_process_mode := procOpts.single_process_mode
                foreman_verbose := procOpts.foreman_verbose
                output := o.output
                operating_system := operating_system
                mount_path := mount_path
                filter_expression := o.filter
                filter_object := filter_object
                status_view_mode := o.status_view_mode }

/-- Boolean success test for an `Except` value. -/
def isOkB {ε α : Type} : Except ε α → Bool
  | .ok _ => true
  | .error _ => false

/-- Filter object of a successful parse (used to state claims without an
existential over the parsed state). -/
def okFilterObject : Except ConfigError ToolState → Option Matcher
  | .ok st => st.filter_object
  | .error _ => none

/-- Run-level errors of `ProcessSource` caught by `Main` (source lines
549-561): `errors.SourceScannerError`, `errors.UserAbort` and
`KeyboardInterrupt`. -/
inductive RunError
  | sourceScanner (msg : String)
  | userAbort
  | keyboardInterrupt
deriving DecidableEq

/-- The outcomes of the front end calls made by `ProcessSource` for one
run: the result of `front_end.ScanSource` and, if reached, of
`front_end.ProcessSource` (the call that spawns the workers). -/
structure Engine where
  scanSource : Except RunError Unit
  processSource : Except RunError Unit

/-- Embedding of `Log2TimelineTool.ProcessSource` (source lines 474-521):
the source is scanned first; a scanner error propagates before
`front_end.ProcessSource` is ever invoked.  The second component records
whether `front_end.ProcessSource` (the worker-spawning call) was
invoked. -/
def ProcessSource (E : Engine) : Except RunError Unit × Bool :=
  match E.scanSource with
  | .error e => (.error e, false)
  | .ok _ =>
    match E.processSource with
    | .error e => (.error e, true)
    | .ok _ => (.ok (), true)

/-- Embedding of the body of `Main` after a successful `ParseArguments`
(source lines 537-563): list options short-circuit with success;
otherwise `ProcessSource` runs and any caught exception turns the result
into `False`.  The second component records whether `ProcessSource` was
invoked. -/
def MainRun (st : ToolState) (E : Engine) : Bool × Bool :=
  if st.list_parsers_and_plugins || st.list_timezones then
    (true, false)
  else
    match (ProcessSource E).1 with
    | .ok _ => (true, true)
    | .error _ => (false, true)

/-- Embedding of `Main` (source lines 524-563): a failed `ParseArguments`
(here: a failed `ParseOptions`) returns `False` without processing. -/
def Main (C : Collaborators) (o : Options) (E : Engine) : Bool × Bool :=
  match ParseOptions C o with
  | .error _ => (false, false)
  | .ok st => MainRun st E

/-- Embedding of the `__main__` block (source lines 566-570): exit status
1 when `Main` returned `False`, 0 otherwise. -/
def exitCode (mainResult : Bool) : Nat :=
  if mainResult then 0 else 1

/-- Modelled from the spec: the FilterGate predicate effectively applied by
the engine (not under the inspected source tree).  Per spec section 4.2 an
empty or absent expression compiles to an always-true predicate, so a run
without a compiled filter object persists every event. -/
def effectiveFilter : Option Matcher → Event → Bool
  | none, _ => true
  | some m, e => m e

/-- Modelled from the spec: the event pipeline of spec section 4.4 (not
under the inspected source tree) — every produced event passes through the
filter predicate before being handed to the storage sink; events failing
the predicate are dropped. -/
def persistEvents (mo : Option Matcher) (events : List Event) : List Event :=
  events.filter (effectiveFilter mo)

/-! ### Partition offset display (`PrintOptions`, source lines 441-472) -/

/-- The Python `ValueError` raised by `int(s, 10)` on a non-numeric
string. -/
inductive PyError
  | valueError
deriving DecidableEq

/-- The possible runtime values of `front_end.partition_offset` as handled
by `PrintOptions`: an integer, `None`, or a string (`basestring`). -/
inductive PyValue
  | int (n : Int)
  | str (s : String)
  | none
deriving DecidableEq

/-- Leading and trailing whitespace removal, as Python `int(s, 10)` applies
to its argument. -/
def stripWS (cs : List Char) : List Char :=
  ((cs.dropWhile Char.isWhitespace).reverse.dropWhile Char.isWhitespace).reverse

/-- Value of a decimal digit character, or `none` for a non-digit. -/
def digitVal (c : Char) : Option Nat :=
  if c.isDigit then some (c.toNat - 48) else none

/-- Accumulating base-10 evaluation of a digit sequence; fails on the
first non-digit character. -/
def digitsToNatCore : List Char → Nat → Option Nat
  | [], acc => some acc
  | c :: cs, acc =>
    match digitVal c with
    | some d => digitsToNatCore cs (acc * 10 + d)
    | none => none

/-- Base-10 evaluation of a non-empty all-digit character list. -/
def digitsToNat (cs : List Char) : Option Nat :=
  if cs.isEmpty then none else digitsToNatCore cs 0

/-- Digit part of a possibly sign-prefixed character list. -/
def splitSign : List Char → List Char
  | '-' :: cs => cs
  | '+' :: cs => cs
  | cs => cs

/-- Sign of a possibly sign-prefixed character list. -/
def signOf : List Char → Int
  | '-' :: _ => -1
  | _ => 1

/-- Embedding of the Python builtin `int(s, 10)`: optional surrounding
whitespace, an optional sign, then at least one decimal digit; anything
else raises `ValueError`. -/
def pyInt10 (s : String) : Except PyError Int :=
  match digitsToNat (splitSign (stripWS s.toList)) with
  | some n => .ok (signOf (stripWS s.toList) * (n : Int))
  | Option.none => .error .valueError

/-- Embedding of the partition-offset normalization in `PrintOptions`
(source lines 450-458): a string value is converted with `int(s, 10)`
and a `ValueError` is caught and replaced by 0; `None` becomes 0; an
integer is displayed as is. -/
def imageOffsetBytes : PyValue → Int
  | .str s =>
    match pyInt10 s with
    | .ok n => n
    | .error _ => 0
  | .none => 0
  | .int n => n

/-- A string accepted by Python `int(s, 10)`: after stripping surrounding
whitespace, an optional sign followed by at least one decimal digit. -/
def IsDecimalString (s : String) : Bool :=
  !(splitSign (stripWS s.toList)).isEmpty
    && (splitSign (stripWS s.toList)).all Char.isDigit

/-! ### Extraction coordinator model (spec sections 3, 4.3, 5)

The ExtractionCoordinator, the workers and the snapshot machinery are not
under the inspected source tree (only their status display,
`_PrintStatusUpdate`, is).  They are modelled from the spec below. -/

/-- Lifecycle state of a worker (spec section 3: `Queued → Running →
Completed` or `Running → Errored`). -/
inductive ProcState
  | queued
  | running
  | completed
  | errored
deriving DecidableEq

/-- Modelled from the spec: the per-worker mutable record of spec section
3, with the field names read by `_PrintStatusUpdate` (source lines
141-163): identifier, pid, lifecycle status, cumulative event count,
delta event count since the last snapshot and the current display
name. -/
structure WorkerStatus where
  identifier : String
  pid : Int
  status : ProcState
  number_of_events : Nat
  number_of_events_delta : Nat
  display_name : String
deriving DecidableEq

/-- Default worker record used for out-of-range lookups. -/
def wsDefault : WorkerStatus :=
  { identifier := ""
    pid := 0
    status := .queued
    number_of_events := 0
    number_of_events_delta := 0
    display_name := "" }

instance : Inhabited WorkerStatus := ⟨wsDefault⟩

/-- Fresh worker record created at run start. -/
def initWorker (i : Nat) : WorkerStatus :=
  { identifier := "Worker_" ++ toString i
    pid := Int.ofNat i
    status := .queued
    number_of_events := 0
    number_of_events_delta := 0
    display_name := "" }

/-- Modelled from the spec: the coordinator-side state of one processing
run (spec sections 4.3 and 5).  `produced` is the worker-side ground
truth (events each worker has produced so far), `table` is the
coordinator-owned authoritative `WorkerStatus` table (one entry per
worker, never added to or removed from during the run), and `snapshots`
is the sequence of `ProcessingStatus` snapshots emitted so far, each an
immutable copy of the table at poll time. -/
structure RunState where
  produced : List Nat
  table : List WorkerStatus
  snapshots : List (List WorkerStatus)

/-- Modelled from the spec: run start creates one `WorkerStatus` per
configured worker, all counters zero, no snapshot emitted yet. -/
def initRun (n : Nat) : RunState :=
  { produced := List.replicate n 0
    table := (List.range n).map initWorker
    snapshots := [] }

/-- Modelled from the spec: the coordinator's update of a `WorkerStatus`
record upon receiving a heartbeat reporting cumulative count `c`: the
cumulative counter is set to `c`, the delta counter to the advance since
the last recorded value, and status / display name are refreshed. -/
def hbUpdate (w : WorkerStatus) (c : Nat) (st : ProcState) (d : String) :
    WorkerStatus :=
  { w with
    number_of_events := c
    number_of_events_delta := c - w.number_of_events
    status := st
    display_name := d }

/-- Modelled from the spec: the events of one processing run (spec
sections 4.3 and 5).  A worker produces `k` further events; the
coordinator applies a heartbeat from worker `i` (reporting that worker's
current cumulative production); a poll emits a fresh snapshot of the
table. -/
inductive Step : RunState → RunState → Prop
  | produce (s : RunState) (i k : Nat) :
      Step s { s with produced := s.produced.set i (s.produced.getD i 0 + k) }
  | heartbeat (s : RunState) (i : Nat) (st : ProcState) (d : String) :
      Step s { s with
               table := s.table.set i
                 (hbUpdate (s.table.getD i wsDefault) (s.produced.getD i 0) st d) }
  | poll (s : RunState) :
      Step s { s with snapshots := s.snapshots ++ [s.table] }

/-- States reachable during one processing run configured with `n`
workers. -/
def Reach (n : Nat) (s : RunState) : Prop :=
  Relation.ReflTransGen Step (initRun n) s

/-- Cumulative event count of worker `i` in a status table. -/
def wcount (t : List WorkerStatus) (i : Nat) : Nat :=
  (t.getD i wsDefault).number_of_events

/-- Pointwise comparison of cumulative counts between two status
tables. -/
def countsLe (a b : List WorkerStatus) : Prop :=
  ∀ i, wcount a i ≤ wcount b i

theorem countsLe_refl (a : List WorkerStatus) : countsLe a a :=
  fun _ => le_refl _

theorem countsLe_trans {a b c : List WorkerStatus}
    (hab : countsLe a b) (hbc : countsLe b c) : countsLe a c :=
  fun i => le_trans (hab i) (hbc i)

/-- Run invariant: the table and the worker-side production vector keep
their initial length, recorded counts never exceed actual production,
every emitted snapshot has one entry per configured worker, and the
snapshot sequence extended by the live table is pairwise monotone in
cumulative counts. -/
structure RunInv (n : Nat) (s : RunState) : Prop where
  prodLen : s.produced.length = n
  tabLen : s.table.length = n
  tabLe : ∀ i, wcount s.table i ≤ s.produced.getD i 0
  snapLen : ∀ t ∈ s.snapshots, t.length = n
  chain : List.Pairwise countsLe (s.snapshots ++ [s.table])

theorem getD_set {α : Type} (l : List α) (i j : Nat) (v d : α) :
    (l.set i v).getD j d = if i = j ∧ j < l.length then v else l.getD j d := by
  simp only [List.getD_eq_getElem?_getD, List.getElem?_set]
  by_cases hij : i = j
  · subst hij
    by_cases hlt : i < l.length
    · simp [hlt]
    · simp [hlt, List.getElem?_eq_none (Nat.le_of_not_lt hlt)]
  · simp [hij]

theorem wcount_set (t : List WorkerStatus) (i j : Nat) (w : WorkerStatus) :
    wcount (t.set i w) j =
      if i = j ∧ j < t.length then w.number_of_events else wcount t j := by
  unfold wcount
  rw [getD_set]
  split <;> rfl

theorem wcount_initRun (n i : Nat) : wcount (initRun n).table i = 0 := by
  unfold wcount initRun
  simp only [List.getD_eq_getElem?_getD, List.getElem?_map]
  by_cases h : i < n
  · rw [List.getElem?_range h]
    rfl
  · rw [List.getElem?_eq_none (by simpa using Nat.le_of_not_lt h)]
    rfl

theorem getD_replicate_zero (n i : Nat) :
    (List.replicate n 0).getD i 0 = 0 := by
  simp only [List.getD_eq_getElem?_getD, List.getElem?_replicate]
  split <;> rfl

theorem pairwise_snoc {α : Type} {R : α → α → Prop} {l : List α} {a : α} :
    List.Pairwise R (l ++ [a]) ↔ List.Pairwise R l ∧ ∀ x ∈ l, R x a := by
  simp [List.pairwise_append]

theorem runInv_init (n : Nat) : RunInv n (initRun n) := by
  constructor
  · exact List.length_replicate n 0
  · simp [initRun]
  · intro i
    rw [wcount_initRun]
    exact Nat.zero_le _
  · intro t ht
    simp [initRun] at ht
  · show List.Pairwise countsLe ([] ++ [(initRun n).table])
    rw [List.nil_append]
    exact List.pairwise_singleton _ _

theorem runInv_step {n : Nat} {s s' : RunState}
    (inv : RunInv n s) (h : Step s s') : RunInv n s' := by
  cases h with
  | produce i k =>
    refine ⟨?_, inv.tabLen, ?_, inv.snapLen, inv.chain⟩
    · simpa [List.length_set] using inv.prodLen
    · intro j
      show wcount s.table j ≤ (s.produced.set i (s.produced.getD i 0 + k)).getD j 0
      rw [getD_set]
      split
      · rename_i hc
        rcases hc with ⟨hij, _⟩
        subst hij
        exact Nat.le_trans (inv.tabLe i) (Nat.le_add_right _ _)
      · exact inv.tabLe j
  | heartbeat i st d =>
    have htt : countsLe s.table
        (s.table.set i (hbUpdate (s.table.getD i wsDefault) (s.produced.getD i 0) st d)) := by
      intro j
      rw [wcount_set]
      split
      · rename_i hc
        rcases hc with ⟨hij, _⟩
        subst hij
        exact inv.tabLe i
      · exact le_refl _
    refine ⟨inv.prodLen, ?_, ?_, inv.snapLen, ?_⟩
    · simpa [List.length_set] using inv.tabLen
    · intro j
      rw [wcount_set]
      split
      · rename_i hc
        rcases hc with ⟨hij, _⟩
        subst hij
        exact le_refl _
      · exact inv.tabLe j
    · rcases pairwise_snoc.mp inv.chain with ⟨hpw, hlast⟩
      exact pairwise_snoc.mpr
        ⟨hpw, fun x hx => countsLe_trans (hlast x hx) htt⟩
  | poll =>
    rcases pairwise_snoc.mp inv.chain with ⟨hpw, hlast⟩
    refine ⟨inv.prodLen, inv.tabLen, inv.tabLe, ?_, ?_⟩
    · intro t ht
      rcases List.mem_append.mp ht with h1 | h1
      · exact inv.snapLen t h1
      · rcases List.mem_singleton.mp h1 with rfl
        exact inv.tabLen
    · refine pairwise_snoc.mpr ⟨inv.chain, ?_⟩
      intro x hx
      rcases List.mem_append.mp hx with h1 | h1
      · exact hlast x h1
      · rcases List.mem_singleton.mp h1 with rfl
        exact countsLe_refl _

theorem runInv_reach {n : Nat} {s : RunState} (h : Reach n s) : RunInv n s := by
  induction h with
  | refl => exact runInv_init n
  | tail _ hstep ih => exact runInv_step ih hstep

/-! ### Event pipeline model (spec section 4.4) for mode equivalence -/

/-- Modelled from the spec: a worker's handling of one `CollectionRoot`
(spec section 4.4, not under the inspected source tree): the parsers
produce events for the root and each event passes the filter predicate
before persistence. -/
def processRoot {Root : Type} (parse : Root → List Event) (pred : Event → Bool)
    (r : Root) : List Event :=
  (parse r).filter pred

/-- Modelled from the spec: single-process mode (spec section 4.3) runs
one in-process extraction loop sequentially over all collection roots. -/
def singleProcessRun {Root : Type} (parse : Root → List Event)
    (pred : Event → Bool) (roots : List Root) : List Event :=
  roots.flatMap (processRoot parse pred)

/-- Modelled from the spec: in parallel mode each worker processes the
collection roots it claimed from the shared queue; `assignment` lists, per
worker, the roots that worker claimed. -/
def parallelWorkerEvents {Root : Type} (parse : Root → List Event)
    (pred : Event → Bool) (assignment : List (List Root)) : List (List Event) :=
  assignment.map fun rs => singleProcessRun parse pred rs

/-- Modelled from the spec: the events persisted by a parallel run are
those persisted by its workers (the storage sink imposes no cross-worker
order; comparisons are order-independent). -/
def parallelPersisted {Root : Type} (parse : Root → List Event)
    (pred : Event → Bool) (assignment : List (List Root)) : List Event :=
  (parallelWorkerEvents parse pred assignment).flatten

/-- Final per-worker persisted-event counters, one `WorkerStatus` entry
per worker. -/
def workerStatusCounts (workerEvents : List (List Event)) : List Nat :=
  workerEvents.map List.length

theorem flatten_map_flatMap {α β : Type} (f : α → List β) (ass : List (List α)) :
    (ass.map fun rs => rs.flatMap f).flatten = ass.flatten.flatMap f := by
  induction ass with
  | nil => rfl
  | cons hd tl ih => simp [List.flatMap_append, ih]

/-! ### Concrete fixtures used by witnesses and counterexamples -/

/-- Concrete collaborators: no timezone listing requested, superclass
parsing succeeds, filter compilation always fails (irrelevant for
filter-less options). -/
def trivC : Collaborators :=
  { parseTimezone := fun _ => false
    superParse := fun _ => .ok ()
    getMatcher := fun _ => none }

/-- A plain valid configuration: storage file and source given, no
filter, no list options, default worker count 0. -/
def baseOpts : Options :=
  { show_info := false
    timezone := "UTC"
    output := some "out.plaso"
    source := some "image.dd"
    filter := none
    single_process := false
    foreman_verbose := false
    workers := 0
    log_file := none
    status_view_mode := "linear"
    os := none
    filename := none
    output_module := none
    text_prepend := none }

/-- A run in which scanning and processing both succeed. -/
def okEngine : Engine := { scanSource := .ok (), processSource := .ok () }

/-- A run ended by a user-initiated abort during processing. -/
def abortEngine : Engine :=
  { scanSource := .ok (), processSource := .error .userAbort }

/-- A run whose source cannot be classified. -/
def scanFailEngine : Engine :=
  { scanSource := .error (.sourceScanner "unsupported format")
    processSource := .ok () }

theorem persistEvents_none (events : List Event) :
    persistEvents none events = events := by
  have h : effectiveFilter (none : Option Matcher) = fun _ => true := rfl
  rw [persistEvents, h, List.filter_true]

/-! ### Claim C1 -/

/-- C1 (counterexample): the claim "starting a processing run raises a
pre-run configuration error whenever the configured worker count is less
than 1" is false on the code: with the default `workers = 0` (which is
less than 1) option parsing succeeds and the run starts and completes
with a successful outcome. -/
theorem workers_zero_starts_and_completes :
    baseOpts.workers < 1 ∧ Main trivC baseOpts okEngine = (true, true) := by
  constructor
  · decide
  · rfl

/-- C1 (amended): the tool performs no worker-count validation at all:
`_ParseProcessingOptions` never reads the `workers` option (its body ends
in `TODO: workers`), so for collaborators that likewise ignore the
`workers` attribute, option parsing and `Main` behave identically for
every workers value — in particular no configuration error is raised for
`workers < 1`. -/
theorem parse_options_ignores_workers (C : Collaborators) (o : Options) (w : Int)
    (htz : C.parseTimezone { o with workers := w } = C.parseTimezone o)
    (hsp : C.superParse { o with workers := w } = C.superParse o) :
    ParseOptions C { o with workers := w } = ParseOptions C o
    ∧ ∀ E : Engine, Main C { o with workers := w } E = Main C o E := by
  have hp : ParseOptions C { o with workers := w } = ParseOptions C o := by
    unfold ParseOptions
    rw [htz, hsp]
    rfl
  exact ⟨hp, fun E => by unfold Main; rw [hp]⟩

/-- C1 (witness): instantiation of the amended claim at a concrete
configuration with worker count -5. -/
theorem parse_options_ignores_workers_witness :
    ParseOptions trivC { baseOpts with workers := -5 } = ParseOptions trivC baseOpts :=
  (parse_options_ignores_workers trivC baseOpts (-5) rfl rfl).1

/-! ### Claim C2 -/

/-- C2: a non-empty filter expression whose compilation yields no usable
predicate is fatal pre-run: on the path that reaches the filter check,
`ParseOptions` raises `BadConfigOption` carrying the offending
expression; and in every case the processing run is never started (the
filter is never silently treated as absent). -/
theorem invalid_filter_expression_fatal (C : Collaborators) (o : Options)
    (expr : String) (hf : o.filter = some expr) (hne : expr.isEmpty = false)
    (hm : C.getMatcher expr = none) :
    (C.parseTimezone o = false → o.show_info = false →
       C.superParse o = .ok () → truthyOpt o.output = true →
       ParseOptions C o =
         .error (.badConfigOption ("Invalid filter expression: " ++ expr)))
    ∧ ∀ E : Engine, (Main C o E).2 = false := by
  have hstep : filterStep C o.filter =
      .error (.badConfigOption ("Invalid filter expression: " ++ expr)) := by
    rw [hf]
    simp [filterStep, truthyOpt, hne, hm]
  constructor
  · intro h1 h2 h3 h4
    unfold ParseOptions
    rw [h1, h2, h3, hstep, h4]
    rfl
  · intro E
    unfold Main ParseOptions
    rcases htz : C.parseTimezone o with _ | _ <;>
      rcases hsi : o.show_info with _ | _ <;>
        simp only [Bool.false_or, Bool.or_false, Bool.or_true, Bool.true_or,
          if_true, if_false]
    · rcases hsp : C.superParse o with e | u
      · simp
      · rw [hstep]
        rcases hout : truthyOpt o.output with _ | _ <;> simp
    · simp [MainRun, earlyState, initToolState]
    · simp [MainRun, earlyState, initToolState]
    · simp [MainRun, earlyState, initToolState]

/-- C2 (witness): a concrete uncompilable expression makes `ParseOptions`
fail with the expression in the error, and the run is never started. -/
theorem invalid_filter_expression_fatal_witness :
    ParseOptions trivC { baseOpts with filter := some "bogus" } =
      .error (.badConfigOption ("Invalid filter expression: " ++ "bogus"))
    ∧ (Main trivC { baseOpts with filter := some "bogus" } okEngine).2 = false := by
  have h := invalid_filter_expression_fatal trivC
    { baseOpts with filter := some "bogus" } "bogus" rfl rfl rfl
  exact ⟨h.1 rfl rfl rfl rfl, h.2 okEngine⟩

/-! ### Claim C3 -/

/-- C3: an absent or empty filter expression is accepted: on the
otherwise-valid path, option parsing succeeds without raising, no filter
object is compiled, and (per the spec-modelled pipeline) every event
produced by the parsers is persisted — none is dropped by the filter
gate. -/
theorem absent_filter_persists_all_events (C : Collaborators) (o : Options)
    (hf : o.filter = none ∨ o.filter = some "")
    (h1 : C.parseTimezone o = false) (h2 : o.show_info = false)
    (h3 : C.superParse o = .ok ()) (h4 : truthyOpt o.output = true) :
    isOkB (ParseOptions C o) = true
    ∧ okFilterObject (ParseOptions C o) = none
    ∧ ∀ events : List Event,
        persistEvents (okFilterObject (ParseOptions C o)) events = events := by
  have hstep : filterStep C o.filter = .ok none := by
    rcases hf with h | h <;> rw [h] <;> rfl
  have hok : ParseOptions C o = .ok
      { list_parsers_and_plugins := false
        list_timezones := false
        single_process_mode := (ParseProcessingOptions o).single_process_mode
        foreman_verbose := (ParseProcessingOptions o).foreman_verbose
        output := o.output
        operating_system := o.os
        mount_path := if truthyOpt o.os then o.filename else none
        filter_expression := o.filter
        filter_object := none
        status_view_mode := o.status_view_mode } := by
    unfold ParseOptions
    rw [h1, h2, h3, hstep, h4]
    rfl
  rw [hok]
  exact ⟨rfl, rfl, fun events => persistEvents_none events⟩

/-- C3 (witness): the concrete filter-less configuration parses
successfully and two concrete events both survive the filter gate. -/
theorem absent_filter_persists_all_events_witness :
    isOkB (ParseOptions trivC baseOpts) = true
    ∧ persistEvents (okFilterObject (ParseOptions trivC baseOpts))
        [⟨[("path", "a")]⟩, ⟨[("path", "b")]⟩] = [⟨[("path", "a")]⟩, ⟨[("path", "b")]⟩] := by
  have h := absent_filter_persists_all_events trivC baseOpts (Or.inl rfl)
    rfl rfl rfl rfl
  exact ⟨h.1, h.2.2 _⟩

/-! ### Claim C4 -/

/-- C4 (counterexample): the claim "the outcome reported to the caller is
not a failure outcome" is false on the code: a run ended by `UserAbort`
makes `Main` return `False`, so the process exits with status 1 — the
failure exit status (a successful run exits 0). -/
theorem user_abort_exits_with_failure_code :
    MainRun initToolState abortEngine = (false, true)
    ∧ exitCode (MainRun initToolState abortEngine).1 = 1
    ∧ exitCode (MainRun initToolState okEngine).1 = 0 :=
  ⟨rfl, rfl, rfl⟩

/-- C4 (amended): `Main` catches `UserAbort` (alongside
`KeyboardInterrupt`), logs a warning rather than an error, and returns
`False`: the run's outcome as reported to the caller is the failure exit
status 1, the same as for scanner errors.  (The engine-side `Aborted`
state and the flushing of partial results are outside the inspected
source.) -/
theorem user_abort_returns_false (st : ToolState) (E : Engine)
    (hflags : (st.list_parsers_and_plugins || st.list_timezones) = false)
    (habort : (ProcessSource E).1 = .error .userAbort) :
    MainRun st E = (false, true) ∧ exitCode (MainRun st E).1 = 1 := by
  have h : MainRun st E = (false, true) := by
    unfold MainRun
    rw [hflags, habort]
    rfl
  rw [h]
  exact ⟨rfl, rfl⟩

/-- C4 (witness): instantiation of the amended claim at the concrete
aborted run. -/
theorem user_abort_returns_false_witness :
    MainRun initToolState abortEngine = (false, true)
    ∧ exitCode (MainRun initToolState abortEngine).1 = 1 :=
  user_abort_returns_false initToolState abortEngine rfl rfl

/-! ### Claim C5 -/

/-- C5: a source that cannot be classified raises `SourceScannerError`
synchronously: `ProcessSource` returns the error before
`front_end.ProcessSource` (the worker-spawning call) is ever invoked, and
`Main` reports the run as failed with exit status 1. -/
theorem scanner_error_aborts_pre_run (E : Engine) (msg : String)
    (hscan : E.scanSource = .error (.sourceScanner msg)) :
    ProcessSource E = (.error (.sourceScanner msg), false)
    ∧ ∀ st : ToolState, (st.list_parsers_and_plugins || st.list_timezones) = false →
        MainRun st E = (false, true) ∧ exitCode (MainRun st E).1 = 1 := by
  have hp : ProcessSource E = (.error (.sourceScanner msg), false) := by
    unfold ProcessSource
    rw [hscan]
  refine ⟨hp, ?_⟩
  intro st hflags
  have h : MainRun st E = (false, true) := by
    unfold MainRun
    rw [hflags, hp]
    rfl
  rw [h]
  exact ⟨rfl, rfl⟩

/-- C5 (witness): instantiation at the concrete unscannable source. -/
theorem scanner_error_aborts_pre_run_witness :
    ProcessSource scanFailEngine =
      (.error (.sourceScanner "unsupported format"), false)
    ∧ MainRun initToolState scanFailEngine = (false, true) := by
  have h := scanner_error_aborts_pre_run scanFailEngine "unsupported format" rfl
  exact ⟨h.1, (h.2 initToolState rfl).1⟩

/-! ### Claim C6 -/

/-- C6: single-process mode is observably equivalent to parallel mode:
whenever the parallel workers' claimed root lists cover the collection
roots exactly once (each root claimed by exactly one worker), the
persisted-event multiset of the parallel run equals that of the
sequential single-process run, and the runs differ in `WorkerStatus`
entry count: exactly one entry for single-process mode versus one per
worker in parallel mode. -/
theorem single_process_equals_parallel {Root : Type}
    (parse : Root → List Event) (pred : Event → Bool)
    (roots : List Root) (assignment : List (List Root))
    (hclaim : assignment.flatten.Perm roots) :
    (↑(parallelPersisted parse pred assignment) : Multiset Event) =
      ↑(singleProcessRun parse pred roots)
    ∧ (workerStatusCounts [singleProcessRun parse pred roots]).length = 1
    ∧ (workerStatusCounts (parallelWorkerEvents parse pred assignment)).length
        = assignment.length := by
  refine ⟨?_, rfl, by simp [workerStatusCounts, parallelWorkerEvents]⟩
  have h1 : parallelPersisted parse pred assignment
      = (assignment.flatten).flatMap (processRoot parse pred) := by
    unfold parallelPersisted parallelWorkerEvents singleProcessRun
    exact flatten_map_flatMap _ _
  rw [h1]
  exact Multiset.coe_eq_coe.mpr (hclaim.flatMap_right (processRoot parse pred))

/-- Concrete roots for the mode-equivalence witness. -/
def evRoots : List Nat := [1, 2, 3]

/-- Concrete two-worker assignment covering `evRoots` exactly once in a
different order. -/
def evAssign : List (List Nat) := [[2], [3, 1]]

/-- Concrete parser: two events per root. -/
def evParse : Nat → List Event :=
  fun r => [⟨[("root", toString r)]⟩, ⟨[("root", toString r), ("dup", "1")]⟩]

/-- Concrete filter predicate: keep single-attribute events. -/
def evPred : Event → Bool := fun e => e.attributes.length == 1

/-- C6 (witness): on the concrete source, the parallel run with two
workers persists the same event multiset as the single-process run, and
shows two `WorkerStatus` entries instead of one. -/
theorem single_process_equals_parallel_witness :
    (↑(parallelPersisted evParse evPred evAssign) : Multiset Event) =
      ↑(singleProcessRun evParse evPred evRoots)
    ∧ (workerStatusCounts [singleProcessRun evParse evPred evRoots]).length = 1
    ∧ (workerStatusCounts (parallelWorkerEvents evParse evPred evAssign)).length = 2 := by
  have h := single_process_equals_parallel evParse evPred evRoots evAssign (by decide)
  exact ⟨h.1, h.2.1, h.2.2⟩

/-! ### Claim C7 -/

/-- C7: in every state reachable during a run configured with `n` workers
(with `n := 1` for single-process mode), every emitted `ProcessingStatus`
snapshot contains exactly `n` `WorkerStatus` entries, and so does the
live status table — the entry count equals the configured worker count
for the run's entire duration. -/
theorem snapshot_worker_count_invariant {n : Nat} {s : RunState}
    (h : Reach n s) :
    (∀ t ∈ s.snapshots, t.length = n) ∧ s.table.length = n := by
  have inv := runInv_reach h
  exact ⟨inv.snapLen, inv.tabLen⟩

/-- Intermediate states of a concrete two-worker run: snapshot, worker 0
produces three events, heartbeat, snapshot. -/
def v0 : RunState := initRun 2

def v1 : RunState := { v0 with snapshots := v0.snapshots ++ [v0.table] }

def v2 : RunState :=
  { v1 with produced := v1.produced.set 0 (v1.produced.getD 0 0 + 3) }

def v3 : RunState :=
  let w := hbUpdate (v2.table.getD 0 wsDefault) (v2.produced.getD 0 0)
    ProcState.running "file1"
  { v2 with table := v2.table.set 0 w }

def v4 : RunState := { v3 with snapshots := v3.snapshots ++ [v3.table] }

theorem reach_v4 : Reach 2 v4 :=
  Relation.ReflTransGen.tail
    (Relation.ReflTransGen.tail
      (Relation.ReflTransGen.tail
        (Relation.ReflTransGen.single (Step.poll v0))
        (Step.produce v1 0 3))
      (Step.heartbeat v2 0 ProcState.running "file1"))
    (Step.poll v3)

/-- C7 (witness): in the concrete two-worker run, the first emitted
snapshot and the live table both have exactly two entries. -/
theorem snapshot_worker_count_invariant_witness :
    (v4.snapshots.getD 0 []).length = 2 ∧ v4.table.length = 2 := by
  have h := snapshot_worker_count_invariant reach_v4
  refine ⟨h.1 _ ?_, h.2⟩
  show v4.snapshots.getD 0 [] ∈ v4.snapshots
  decide

/-! ### Claim C8 -/

/-- C8: per-worker cumulative event counters never regress: in every
reachable state of a run, for any two snapshots emitted in order (the
earlier at index `i`, the later at index `j`), every worker's cumulative
event count in the later snapshot is at least its count in the earlier
one. -/
theorem worker_counters_monotone {n : Nat} {s : RunState} (h : Reach n s)
    (i j : Nat) (hij : i ≤ j) (hj : j < s.snapshots.length) :
    countsLe (s.snapshots.getD i []) (s.snapshots.getD j []) := by
  have inv := runInv_reach h
  have hpw : List.Pairwise countsLe s.snapshots := (pairwise_snoc.mp inv.chain).1
  rcases Nat.lt_or_ge i j with hlt | hge
  · have hi : i < s.snapshots.length := Nat.lt_trans hlt hj
    rw [List.getD_eq_getElem _ _ hi, List.getD_eq_getElem _ _ hj]
    exact List.pairwise_iff_get.mp hpw ⟨i, hi⟩ ⟨j, hj⟩ hlt
  · have heq : i = j := Nat.le_antisymm hij hge
    subst heq
    exact countsLe_refl _

/-- C8 (witness): in the concrete run, worker 0's cumulative count in the
first snapshot (0) does not exceed its count in the second snapshot
(3). -/
theorem worker_counters_monotone_witness :
    wcount (v4.snapshots.getD 0 []) 0 ≤ wcount (v4.snapshots.getD 1 []) 0 :=
  worker_counters_monotone reach_v4 0 1 (by decide) (by decide) 0

/-! ### Claim C9 -/

/-- C9: output validation is gated on the list options: when neither
`show_info` nor `list_timezones` is set, a missing or empty output path
makes `ParseOptions` raise `BadConfigOption` (with the message
`No output defined.` once the superclass parser succeeded) and `Main`
fail without starting a run; when a list option is set, `ParseOptions`
returns the early state without validating output, filter or processing
options, and `Main` exits successfully without starting a processing
run. -/
theorem list_options_gate_validation (C : Collaborators) (o : Options) :
    ((C.parseTimezone o = false → o.show_info = false → truthyOpt o.output = false →
        isOkB (ParseOptions C o) = false
        ∧ (C.superParse o = .ok () →
            ParseOptions C o = .error (.badConfigOption "No output defined."))
        ∧ ∀ E : Engine, Main C o E = (false, false))
     ∧ ((C.parseTimezone o = true ∨ o.show_info = true) →
        ParseOptions C o = .ok (earlyState (C.parseTimezone o) o.show_info)
        ∧ ∀ E : Engine, Main C o E = (true, false))) := by
  constructor
  · intro h1 h2 h4
    have herr : ∀ e : ConfigError, C.superParse o = Except.error e →
        ParseOptions C o = .error e := by
      intro e hsp
      unfold ParseOptions
      rw [h1, h2, hsp]
      rfl
    have hok : C.superParse o = .ok () →
        ParseOptions C o = .error (.badConfigOption "No output defined.") := by
      intro hsp
      unfold ParseOptions
      rw [h1, h2, hsp, h4]
      rfl
    have hbad : isOkB (ParseOptions C o) = false := by
      rcases hsp : C.superParse o with e | u
      · rw [herr e hsp]
        rfl
      · rcases u
        rw [hok hsp]
        rfl
    refine ⟨hbad, hok, ?_⟩
    intro E
    unfold Main
    rcases hpo : ParseOptions C o with e | stv
    · rfl
    · rw [hpo] at hbad
      exact absurd hbad (by simp [isOkB])
  · intro hflag
    have hone : (C.parseTimezone o || o.show_info) = true := by
      rcases hflag with h | h <;> simp [h]
    have hok : ParseOptions C o = .ok (earlyState (C.parseTimezone o) o.show_info) := by
      unfold ParseOptions
      simp only [hone, eq_self_iff_true, if_true]
    refine ⟨hok, ?_⟩
    intro E
    unfold Main
    rw [hok]
    unfold MainRun earlyState initToolState
    simp only
    rcases hflag with h | h <;> rw [h] <;> simp

/-- C9 (witness): concretely, with no list option and no output path
`Main` fails without starting a run, while with `--info` set and the same
missing output path `Main` succeeds without starting a run. -/
theorem list_options_gate_validation_witness :
    Main trivC { baseOpts with output := none } okEngine = (false, false)
    ∧ Main trivC { baseOpts with show_info := true, output := none } okEngine
        = (true, false) := by
  refine ⟨((list_options_gate_validation trivC
    { baseOpts with output := none }).1 rfl rfl rfl).2.2 okEngine, ?_⟩
  exact ((list_options_gate_validation trivC
    { baseOpts with show_info := true, output := none }).2 (Or.inr rfl)).2 okEngine

/-! ### Claim C10 -/

theorem digitsToNatCore_isSome (cs : List Char) (acc : Nat) :
    (digitsToNatCore cs acc).isSome = cs.all Char.isDigit := by
  induction cs generalizing acc with
  | nil => rfl
  | cons c cs ih =>
    unfold digitsToNatCore digitVal
    by_cases h : c.isDigit
    · simp [h, ih]
    · simp [h]

theorem digitsToNat_isSome (cs : List Char) :
    (digitsToNat cs).isSome = (!cs.isEmpty && cs.all Char.isDigit) := by
  unfold digitsToNat
  by_cases h : cs.isEmpty = true
  · rw [if_pos h, h]
    rfl
  · rw [if_neg h]
    have h2 : cs.isEmpty = false := by
      cases hcs : cs.isEmpty
      · rfl
      · exact absurd hcs h
    rw [h2, digitsToNatCore_isSome]
    rfl

theorem pyInt10_ok_iff (s : String) :
    (∃ n : Int, pyInt10 s = .ok n) ↔ IsDecimalString s = true := by
  have hs := digitsToNat_isSome (splitSign (stripWS s.toList))
  unfold pyInt10 IsDecimalString
  cases hd : digitsToNat (splitSign (stripWS s.toList)) with
  | none =>
    rw [hd] at hs
    constructor
    · rintro ⟨n, hn⟩
      exact Except.noConfusion hn
    · intro hdec
      rw [← hs] at hdec
      exact absurd hdec (by decide)
  | some m =>
    rw [hd] at hs
    constructor
    · intro _
      rw [← hs]
      rfl
    · intro _
      exact ⟨signOf (stripWS s.toList) * (m : Int), rfl⟩

/-- C10: `PrintOptions` is total on the partition offset: for every value
of `front_end.partition_offset` — an integer, `None`, or any string — the
displayed offset is a well-defined integer: 0 for `None` and for strings
that do not parse as base-10 integers, the parsed value for decimal
numeric strings, and the value itself for integers; the `ValueError` of
`int(s, 10)` is always caught. -/
theorem partition_offset_print_total (v : PyValue) :
    (v = PyValue.none → imageOffsetBytes v = 0)
    ∧ (∀ s, v = PyValue.str s → IsDecimalString s = false → imageOffsetBytes v = 0)
    ∧ (∀ s, v = PyValue.str s → IsDecimalString s = true →
        ∃ n : Int, pyInt10 s = .ok n ∧ imageOffsetBytes v = n)
    ∧ (∀ n, v = PyValue.int n → imageOffsetBytes v = n) := by
  refine ⟨?_, ?_, ?_, ?_⟩
  · rintro rfl
    rfl
  · rintro s rfl hdec
    have herr : ¬∃ n : Int, pyInt10 s = .ok n := by
      rw [pyInt10_ok_iff, hdec]
      simp
    have hred : imageOffsetBytes (PyValue.str s)
        = match pyInt10 s with | .ok n => n | .error _ => 0 := rfl
    rw [hred]
    cases hp : pyInt10 s with
    | ok n => exact absurd ⟨n, hp⟩ herr
    | error e => rfl
  · rintro s rfl hdec
    obtain ⟨n, hn⟩ := (pyInt10_ok_iff s).mpr hdec
    refine ⟨n, hn, ?_⟩
    have hred : imageOffsetBytes (PyValue.str s)
        = match pyInt10 s with | .ok k => k | .error _ => 0 := rfl
    rw [hred, hn]
  · rintro n rfl
    rfl

/-- C10 (witness): the concrete cases — `None`, a non-numeric string and
a decimal numeric string — all display an integer, with 0 for the first
two and the parsed value 63 for the third. -/
theorem partition_offset_print_total_witness :
    imageOffsetBytes PyValue.none = 0
    ∧ imageOffsetBytes (PyValue.str "offset") = 0
    ∧ imageOffsetBytes (PyValue.str "63") = 63 := by
  refine ⟨(partition_offset_print_total PyValue.none).1 rfl,
    (partition_offset_print_total (PyValue.str "offset")).2.1 "offset" rfl (by rfl), ?_⟩
  obtain ⟨n, h1, h2⟩ :=
    (partition_offset_print_total (PyValue.str "63")).2.2.1 "63" rfl (by rfl)
  have h3 : pyInt10 "63" = Except.ok 63 := by rfl
  rw [h2]
  rw [h1] at h3
  injection h3

end Log2Timeline
